import Mathlib

/-!
Shallow embedding of the `scout` health-check core (Go), for checking its
natural-language specification against the code.

Sources embedded here:
  * `internal/monitor` status/result data model,
  * the five checkers (`HTTPChecker`, `TCPChecker`, `TLSChecker`,
    `DNSChecker`, `LatencyChecker`) and the JSON-assertion evaluator,
  * the orchestrator (`Monitor`: `NewMonitor`, `Start` interval fallback,
    `checkService` retry loop and notification gate),
  * `notify.Notifier.NotifyStatusChange`,
  * `config.Config.AddService`.

Modelling conventions:
  * Network and OS effects are abstracted into explicit `...Outcome`
    parameters: the pure decision logic that follows each I/O call is
    translated from the Go source line by line.
  * Go `int`/`int64` are modelled as `Int`; Go `float64` values that flow
    through gjson comparisons are modelled as `Rat` (no claim depends on
    IEEE rounding); Go durations are `Int` nanoseconds.
  * Go `error` values are `Option String` (`none` = nil). Wrapped stdlib
    error texts that the code only passes through are carried as abstract
    strings in the outcome constructors.
  * `time.Now()` timestamps (`CheckedAt`) are ambient clock reads that no
    claim depends on; they are omitted from the `Result` record.
-/

/-- `monitor.Status` (string enum: healthy / unhealthy / unknown / checking). -/
inductive Status where
  | healthy
  | unhealthy
  | unknown
  | checking
deriving DecidableEq, Repr

/-- `monitor.Result`: the outcome of one health-check attempt.
`ResponseTime` is nanoseconds, `Error` is `none` for a nil Go error. -/
structure Result where
  serviceName : String
  status : Status
  responseTime : Int
  statusCode : Int
  error : Option String
  message : String
deriving DecidableEq, Repr

/-- A Go `interface{}` value as it appears in a YAML-decoded
`JSONAssertion.Value`: string, float64, bool, nil, or anything else. -/
inductive GoValue where
  | str (s : String)
  | num (q : Rat)
  | bool (b : Bool)
  | nil
  | other
deriving DecidableEq, Repr

/-- `config.JSONAssertion`. -/
structure JSONAssertion where
  path : String
  value : GoValue
  operator : String
deriving DecidableEq, Repr

/-- `config.Auth`. -/
structure Auth where
  type : String
  token : String
  username : String
  password : String
deriving DecidableEq, Repr

/-- `config.Service`. `expectedStatus`, `tlsWarningDays`,
`latencyThreshold` are Go `int` fields (0 when unset). -/
structure Service where
  name : String
  url : String
  healthEndpoint : String
  method : String
  expectedStatus : Int
  headers : List (String × String)
  type : String
  auth : Option Auth
  jsonAssertions : List JSONAssertion
  tlsWarningDays : Int
  latencyThreshold : Int
deriving DecidableEq, Repr

/-- `config.Config`. Durations are kept as the raw strings the YAML held;
their parsing by `time.ParseDuration` is passed in explicitly where the
monitor consumes them. -/
structure Config where
  checkInterval : String
  timeout : String
  retryAttempts : Int
  services : List Service
deriving DecidableEq, Repr

/-- A single-quote character, used in error texts built with `%s`-style
quoting in the Go source. -/
def squote : String := String.singleton (Char.ofNat 39)

/-- A `gjson.Result` as the checker consumes it: `Exists()`, `String()`,
`Float()`, `Bool()` and the `%v` rendering of `Value()`. The gjson library
is external to the repository; only the coercion views the code calls are
modelled. -/
structure GJsonResult where
  exs : Bool
  str : String
  float : Rat
  bool : Bool
  valfmt : String
deriving DecidableEq, Repr

/-- Go `%v` rendering of an `interface{}` expected value, used only inside
the assertion-failure error message (no claim depends on its exact form
for numbers). -/
def goValueFmt : GoValue → String
  | GoValue.str s => s
  | GoValue.num q => toString q
  | GoValue.bool b => if b then "true" else "false"
  | GoValue.nil => "<nil>"
  | GoValue.other => "?"

/-- `HTTPChecker.jsonValueEquals`. -/
def jsonValueEquals (actual : GJsonResult) (expected : GoValue) : Bool :=
  match expected with
  | GoValue.str v => actual.str == v
  | GoValue.num v => actual.float == v
  | GoValue.bool v => actual.bool == v
  | GoValue.nil => !actual.exs
  | GoValue.other => false

/-- `HTTPChecker.jsonGreaterThan`. -/
def jsonGreaterThan (actual : GJsonResult) (expected : GoValue) : Bool :=
  match expected with
  | GoValue.num v => actual.float > v
  | _ => false

/-- `HTTPChecker.jsonLessThan`. -/
def jsonLessThan (actual : GJsonResult) (expected : GoValue) : Bool :=
  match expected with
  | GoValue.num v => actual.float < v
  | _ => false

/-- `HTTPChecker.jsonGreaterOrEqual`. -/
def jsonGreaterOrEqual (actual : GJsonResult) (expected : GoValue) : Bool :=
  match expected with
  | GoValue.num v => actual.float ≥ v
  | _ => false

/-- `HTTPChecker.jsonLessOrEqual`. -/
def jsonLessOrEqual (actual : GJsonResult) (expected : GoValue) : Bool :=
  match expected with
  | GoValue.num v => actual.float ≤ v
  | _ => false

/-- `strings.Contains`: substring test. -/
def strContains (s sub : String) : Bool :=
  decide (List.IsInfix sub.toList s.toList)

/-- `HTTPChecker.jsonContains`. -/
def jsonContains (actual : GJsonResult) (expected : GoValue) : Bool :=
  match expected with
  | GoValue.str v => strContains actual.str v
  | _ => false

/-- `strings.ToLower` as the operator dispatch consumes it (the operator
spellings involved are ASCII; per-character lowercase mapping). -/
def goToLower (s : String) : String := String.mk (s.data.map Char.toLower)

/-- `HTTPChecker.compareValue`: operator dispatch over
`strings.ToLower(operator)`. -/
def compareValue (actual : GJsonResult) (expected : GoValue) (operator : String) : Bool :=
  match goToLower operator with
  | "==" => jsonValueEquals actual expected
  | "equals" => jsonValueEquals actual expected
  | "!=" => !jsonValueEquals actual expected
  | "not_equals" => !jsonValueEquals actual expected
  | ">" => jsonGreaterThan actual expected
  | "<" => jsonLessThan actual expected
  | ">=" => jsonGreaterOrEqual actual expected
  | "<=" => jsonLessOrEqual actual expected
  | "contains" => jsonContains actual expected
  | _ => false

/-- The Go error text for a missing JSON path:
`fmt.Errorf("JSON path '%s' not found in response", assertion.Path)`. -/
def pathNotFoundMsg (path : String) : String :=
  "JSON path " ++ squote ++ path ++ squote ++ " not found in response"

/-- The Go error text for a failed comparison:
`fmt.Errorf("JSON assertion failed: %s %s %v, got %v", ...)`. -/
def assertionFailedMsg (a : JSONAssertion) (value : GJsonResult) : String :=
  "JSON assertion failed: " ++ a.path ++ " " ++ a.operator ++ " "
    ++ goValueFmt a.value ++ ", got " ++ value.valfmt

/-- The error produced by evaluating one assertion against the body
(`none` = assertion passes). Specification helper: factors out one loop
iteration of `validateJSONAssertions`. -/
def assertionError (lookup : String → GJsonResult) (a : JSONAssertion) : Option String :=
  let value := lookup a.path
  if !value.exs then some (pathNotFoundMsg a.path)
  else if !compareValue value a.value a.operator then some (assertionFailedMsg a value)
  else none

/-- `HTTPChecker.validateJSONAssertions`: evaluates assertions in order,
returning the first failure (`none` = all pass). `lookup` models
`gjson.Get(body, path)`. -/
def validateJSONAssertions (lookup : String → GJsonResult) :
    List JSONAssertion → Option String
  | [] => none
  | a :: rest =>
    let value := lookup a.path
    if !value.exs then some (pathNotFoundMsg a.path)
    else if !compareValue value a.value a.operator then some (assertionFailedMsg a value)
    else validateJSONAssertions lookup rest

/-- Outcome of the I/O phase of `HTTPChecker.Check`: request construction
failure, transport failure, body-read failure (status code already
recorded), or a complete response. A complete response carries the status
code, the elapsed nanoseconds, and the body in the form the code consumes
it: `gjson.Get` over the body, one `GJsonResult` per path. -/
inductive HTTPOutcome where
  | reqError (e : String)
  | connError (e : String) (elapsed : Int)
  | readError (statusCode : Int) (e : String) (elapsed : Int)
  | response (statusCode : Int) (lookup : String → GJsonResult) (elapsed : Int)

/-- `HTTPChecker.Check`, decision logic after each I/O step. -/
def HTTPCheck (service : Service) (outcome : HTTPOutcome) : Result :=
  let result : Result :=
    { serviceName := service.name, status := Status.checking,
      responseTime := 0, statusCode := 0, error := none, message := "" }
  match outcome with
  | HTTPOutcome.reqError e =>
    { result with status := Status.unhealthy,
                  error := some ("failed to create request: " ++ e) }
  | HTTPOutcome.connError e elapsed =>
    { result with responseTime := elapsed, status := Status.unhealthy,
                  error := some e, message := "Connection failed" }
  | HTTPOutcome.readError code e elapsed =>
    { result with responseTime := elapsed, statusCode := code,
                  status := Status.unhealthy,
                  error := some ("failed to read response body: " ++ e) }
  | HTTPOutcome.response code lookup elapsed =>
    let result := { result with responseTime := elapsed, statusCode := code }
    let expectedStatus := if service.expectedStatus == 0 then 200 else service.expectedStatus
    if code != expectedStatus then
      { result with status := Status.unhealthy,
                    message := "Expected " ++ toString expectedStatus ++ ", got " ++ toString code }
    else
      let verr :=
        if service.jsonAssertions.length > 0 then
          validateJSONAssertions lookup service.jsonAssertions
        else none
      match verr with
      | some e => { result with status := Status.unhealthy, error := some e }
      | none =>
        { result with status := Status.healthy,
                      message := "HTTP " ++ toString code }

/-- Outcome of `net.DialTimeout` in `TCPChecker.Check`. -/
inductive TCPOutcome where
  | dialError (e : String) (elapsed : Int)
  | connected (elapsed : Int)
deriving DecidableEq, Repr

/-- `TCPChecker.Check`. -/
def TCPCheck (service : Service) (outcome : TCPOutcome) : Result :=
  let result : Result :=
    { serviceName := service.name, status := Status.checking,
      responseTime := 0, statusCode := 0, error := none, message := "" }
  match outcome with
  | TCPOutcome.dialError e elapsed =>
    { result with responseTime := elapsed, status := Status.unhealthy,
                  error := some e, message := "Connection refused" }
  | TCPOutcome.connected elapsed =>
    { result with responseTime := elapsed, status := Status.healthy,
                  message := "Port open" }

/-- Outcome of the TLS dial in `TLSChecker.Check`. On a successful
verified handshake the leaf certificate is summarised by
`remainingNanos` (`time.Until(cert.NotAfter)` at check time; negative
when already expired) and `notAfterFmt` (`cert.NotAfter.Format("2006-01-02")`).
`noCerts` is the defensive empty-`PeerCertificates` branch; `crypto/tls`
never yields it after a verified handshake. -/
inductive TLSOutcome where
  | dialError (e : String) (elapsed : Int)
  | noCerts (elapsed : Int)
  | cert (remainingNanos : Int) (notAfterFmt : String) (elapsed : Int)
deriving DecidableEq, Repr

/-- Nanoseconds per day: `Hours()/24` over a nanosecond count. -/
def nanosPerDay : Int := 86400000000000

/-- `TLSChecker.Check`. `int(time.Until(cert.NotAfter).Hours() / 24)`
truncates toward zero, i.e. `Int.tdiv remainingNanos nanosPerDay`. -/
def TLSCheck (service : Service) (outcome : TLSOutcome) : Result :=
  let result : Result :=
    { serviceName := service.name, status := Status.checking,
      responseTime := 0, statusCode := 0, error := none, message := "" }
  match outcome with
  | TLSOutcome.dialError e elapsed =>
    { result with responseTime := elapsed, status := Status.unhealthy,
                  error := some ("TLS connection failed: " ++ e),
                  message := "TLS connection failed" }
  | TLSOutcome.noCerts elapsed =>
    { result with responseTime := elapsed, status := Status.unhealthy,
                  error := some "no certificates found",
                  message := "No certificates found" }
  | TLSOutcome.cert remainingNanos notAfterFmt elapsed =>
    let expiryDays := Int.tdiv remainingNanos nanosPerDay
    let warningDays := if service.tlsWarningDays == 0 then 30 else service.tlsWarningDays
    let result :=
      { result with responseTime := elapsed,
                    message := "Certificate expires in " ++ toString expiryDays ++ " days" }
    if remainingNanos < 0 then
      { result with status := Status.unhealthy,
                    error := some ("certificate expired on " ++ notAfterFmt) }
    else if expiryDays < warningDays then
      { result with status := Status.unhealthy,
                    error := some ("certificate expires in " ++ toString expiryDays
                    ++ " days (warning threshold: " ++ toString warningDays ++ " days)") }
    else
      { result with status := Status.healthy }

/-- Outcome of `resolver.LookupIPAddr` in `DNSChecker.Check`. -/
inductive DNSOutcome where
  | resolveError (e : String) (elapsed : Int)
  | resolved (ips : List String) (elapsed : Int)
deriving DecidableEq, Repr

/-- Host extraction in `DNSChecker.Check`: strips scheme, path and port. -/
def dnsHost (url : String) : String :=
  let host := if strContains url "://" then ((url.splitOn "://").getD 1 "") else url
  let host := if strContains host "/" then ((host.splitOn "/").getD 0 "") else host
  if strContains host ":" then ((host.splitOn ":").getD 0 "") else host

/-- `DNSChecker.Check`. -/
def DNSCheck (service : Service) (outcome : DNSOutcome) : Result :=
  let result : Result :=
    { serviceName := service.name, status := Status.checking,
      responseTime := 0, statusCode := 0, error := none, message := "" }
  match outcome with
  | DNSOutcome.resolveError e elapsed =>
    { result with responseTime := elapsed, status := Status.unhealthy,
                  error := some ("DNS resolution failed: " ++ e),
                  message := "DNS resolution failed" }
  | DNSOutcome.resolved ips elapsed =>
    let result := { result with responseTime := elapsed }
    match ips with
    | [] =>
      { result with status := Status.unhealthy,
                    error := some ("no IP addresses found for " ++ dnsHost service.url),
                    message := "No IP addresses found" }
    | ip :: _ =>
      { result with status := Status.healthy,
                    message := "Resolved to " ++ ip }

/-- Outcome of the request in `LatencyChecker.Check`. -/
inductive LatencyOutcome where
  | reqError (e : String)
  | connError (e : String) (elapsed : Int)
  | ok (elapsed : Int)
deriving DecidableEq, Repr

/-- `LatencyChecker.Check`. `Duration.Milliseconds()` is truncating
integer division of nanoseconds by 1e6. -/
def LatencyCheck (service : Service) (outcome : LatencyOutcome) : Result :=
  let result : Result :=
    { serviceName := service.name, status := Status.checking,
      responseTime := 0, statusCode := 0, error := none, message := "" }
  match outcome with
  | LatencyOutcome.reqError e =>
    { result with status := Status.unhealthy,
                  error := some ("failed to create request: " ++ e) }
  | LatencyOutcome.connError e elapsed =>
    { result with responseTime := elapsed, status := Status.unhealthy,
                  error := some e, message := "Connection failed" }
  | LatencyOutcome.ok elapsed =>
    let result := { result with responseTime := elapsed }
    let latencyMs := Int.tdiv elapsed 1000000
    let thresholdMs := if service.latencyThreshold == 0 then 5000 else service.latencyThreshold
    let result := { result with message := "Latency: " ++ toString latencyMs ++ "ms" }
    if latencyMs > thresholdMs then
      { result with status := Status.unhealthy,
                    error := some ("latency " ++ toString latencyMs
                    ++ "ms exceeds threshold of " ++ toString thresholdMs ++ "ms") }
    else
      { result with status := Status.healthy }

/-- One invocation of some checker's `Check`: the service plus the
abstracted I/O outcome, covering all five registered checkers. -/
inductive CheckInvocation where
  | http (service : Service) (o : HTTPOutcome)
  | tcp (service : Service) (o : TCPOutcome)
  | tls (service : Service) (o : TLSOutcome)
  | dns (service : Service) (o : DNSOutcome)
  | latency (service : Service) (o : LatencyOutcome)

/-- Dispatch of `Checker.Check` over the five checker variants. -/
def runCheck : CheckInvocation → Result
  | CheckInvocation.http service o => HTTPCheck service o
  | CheckInvocation.tcp service o => TCPCheck service o
  | CheckInvocation.tls service o => TLSCheck service o
  | CheckInvocation.dns service o => DNSCheck service o
  | CheckInvocation.latency service o => LatencyCheck service o

/-- `notify.Notifier`. -/
structure Notifier where
  enabled : Bool
deriving DecidableEq, Repr

/-- `notify.Notifier.NotifyStatusChange`, modelled as whether a desktop
notification is sent (`NotifyRecovery` or `NotifyFailure` is reached);
the Go function's `error` return is always nil. -/
def NotifyStatusChange (n : Notifier) (resultStatus previousStatus : Status) : Bool :=
  if !n.enabled then false
  else if resultStatus == Status.healthy && previousStatus == Status.unhealthy then
    true
  else if resultStatus == Status.unhealthy
      && (previousStatus == Status.healthy || previousStatus == Status.unknown) then
    true
  else false

/-- `monitor.Monitor`: channels, mutex and the per-checker timeout are
omitted; `checkerTypes` is the key set of the `checkers` map and
`serviceStatuses` the status-tracker map is threaded explicitly where
needed. -/
structure Monitor where
  config : Config
  checkerTypes : List String
  notifier : Notifier
deriving DecidableEq, Repr

/-- The checker registry constructed by `NewMonitor`. -/
def registeredCheckerTypes : List String := ["http", "tcp", "tls", "dns", "latency"]

/-- `monitor.NewMonitor`. `parsedTimeout` is the outcome of
`time.ParseDuration(cfg.Timeout)` (an external stdlib call): `Except.ok`
with the nanosecond value on success, `Except.error` with the stdlib
error text on failure. -/
def NewMonitor (parsedTimeout : Except String Int) (cfg : Config) : Except String Monitor :=
  match parsedTimeout with
  | Except.error e => Except.error ("invalid timeout duration: " ++ e)
  | Except.ok _timeout =>
    Except.ok
      { config := cfg, checkerTypes := registeredCheckerTypes,
        notifier := { enabled := true } }

/-- The check-interval selection at the top of `Monitor.Start`:
`parsedInterval` is the outcome of
`time.ParseDuration(m.Config.CheckInterval)`; a parse failure falls back
to 30 seconds. -/
def startCheckInterval (parsedInterval : Except String Int) : Int :=
  match parsedInterval with
  | Except.error _ => 30 * 1000000000
  | Except.ok d => d

/-- The retry loop of `Monitor.checkService` from iteration `attempt`
(with `attempt < retries`): `attempts i` is the result of the `i`-th
`checker.Check(ctx, service)` call. Returns the result that stopped the
loop, the number of attempts made from this iteration on, and the number
of one-second `time.Sleep` calls made. -/
def retryLoop (attempts : Nat → Result) (retries : Nat) (attempt : Nat) : Result × Nat × Nat :=
  let r := attempts attempt
  if r.status = Status.healthy then (r, 1, 0)
  else if _h : attempt + 1 < retries then
    let next := retryLoop attempts retries (attempt + 1)
    (next.1, next.2.1 + 1, next.2.2 + 1)
  else (r, 1, 0)
termination_by retries - attempt

/-- Everything `Monitor.checkService` does that the claims observe: the
results published to the stream, in order, the number of
`checker.Check` calls, and the number of one-second inter-retry sleeps. -/
structure CheckTrace where
  published : List Result
  attemptsMade : Nat
  sleepSeconds : Nat
deriving DecidableEq, Repr

/-- The interim result `checkService` publishes before dispatch. -/
def checkingResult (service : Service) : Result :=
  { serviceName := service.name, status := Status.checking,
    responseTime := 0, statusCode := 0, error := none, message := "" }

/-- The effective checker type: `service.Type`, defaulting to `"http"`
when empty. -/
def effectiveCheckerType (service : Service) : String :=
  if service.type == "" then "http" else service.type

/-- `Monitor.checkService` (monitor with notification support): publishes
the interim checking result, dispatches on the registry, runs the retry
loop, publishes the terminal result. The context-cancelled early returns
are not taken (the claims quantify over runs that complete). -/
def checkService (retryAttempts : Int) (checkerTypes : List String)
    (service : Service) (attempts : Nat → Result) : CheckTrace :=
  let interim := checkingResult service
  let checkerType := effectiveCheckerType service
  if checkerTypes.contains checkerType then
    let retries := if retryAttempts < 1 then 1 else retryAttempts
    let outcome := retryLoop attempts retries.toNat 0
    { published := [interim, outcome.1],
      attemptsMade := outcome.2.1, sleepSeconds := outcome.2.2 }
  else
    { published := [interim,
        { serviceName := service.name, status := Status.unknown,
          responseTime := 0, statusCode := 0,
          error := some ("unknown checker type: " ++ checkerType), message := "" }],
      attemptsMade := 0, sleepSeconds := 0 }

/-- The notification decision after the retry loop in
`Monitor.checkService`: given the tracked previous status of the service
and the terminal result's status, whether a notification is sent.
`NewMonitor` constructs the notifier with `enabled = true`. -/
def monitorNotifies (previousStatus resultStatus : Status) : Bool :=
  if previousStatus != resultStatus && resultStatus != Status.checking then
    if (previousStatus != Status.unknown && previousStatus != Status.checking)
        || (resultStatus == Status.healthy || resultStatus == Status.unhealthy) then
      NotifyStatusChange { enabled := true } resultStatus previousStatus
    else false
  else false

/-- `config.Config.AddService`, as `(updated receiver, returned error)`:
the Go method mutates the receiver only when it returns nil. -/
def Config.AddService (c : Config) (service : Service) : Config × Option String :=
  if c.services.any (fun s => s.name == service.name) then
    (c, some ("service with name " ++ squote ++ service.name ++ squote ++ " already exists"))
  else
    ({ c with services := c.services ++ [service] }, none)

/-- A concrete service descriptor used by the concrete witnesses below:
an HTTP service with every optional field unset. -/
def exService : Service :=
  { name := "example", url := "http://example.test", healthEndpoint := "/health",
    method := "", expectedStatus := 0, headers := [], type := "", auth := none,
    jsonAssertions := [], tlsWarningDays := 0, latencyThreshold := 0 }

/-- A service whose declared type has no registered checker. -/
def exRedisService : Service := { exService with type := "redis" }

/-- A gjson miss: `Exists()` is false, all coercions zero-valued. -/
def gAbsent : GJsonResult :=
  { exs := false, str := "", float := 0, bool := false, valfmt := "" }

/-- A present gjson number (`Float() = 5`). -/
def gFive : GJsonResult :=
  { exs := true, str := "5", float := 5, bool := false, valfmt := "5" }

/-- A body under which every path is missing (e.g. a non-JSON body). -/
def exLookup : String → GJsonResult := fun _ => gAbsent

/-- A concrete configuration whose timeout string does not parse. -/
def exConfig : Config :=
  { checkInterval := "30s", timeout := "bogus", retryAttempts := 3, services := [] }

/-- A concrete unhealthy checker result for `exService`. -/
def exUnhealthy : Result :=
  { serviceName := "example", status := Status.unhealthy, responseTime := 0,
    statusCode := 0, error := some "connection refused", message := "Connection refused" }

/-- A concrete healthy checker result for `exService`. -/
def exHealthy : Result :=
  { serviceName := "example", status := Status.healthy, responseTime := 0,
    statusCode := 200, error := none, message := "HTTP 200" }

/-- An attempt stream that fails twice, then succeeds. -/
def exAttempts : Nat → Result := fun i => if i < 2 then exUnhealthy else exHealthy

/-- The terminal result `checkService` publishes for an unregistered
checker type (named here for reuse in statements). -/
def unknownCheckerResult (svc : Service) : Result :=
  { serviceName := svc.name, status := Status.unknown, responseTime := 0,
    statusCode := 0, error := some ("unknown checker type: " ++ effectiveCheckerType svc),
    message := "" }

/-- Full characterisation of the `Monitor.checkService` retry loop started
at `attempt < retries` (with `k` fuel bounding the remaining iterations):
at least one and at most `retries - attempt` attempts are made; the
returned result is the outcome of the last attempt made; every earlier
attempt was not healthy; the loop stopped on a healthy attempt or after
exhausting `retries`; and one one-second sleep happened per non-final
attempt. -/
theorem retryLoop_spec (attempts : Nat → Result) (retries k : Nat) :
    ∀ attempt, retries - attempt ≤ k → attempt < retries →
    1 ≤ (retryLoop attempts retries attempt).2.1 ∧
    attempt + (retryLoop attempts retries attempt).2.1 ≤ retries ∧
    (retryLoop attempts retries attempt).1
      = attempts (attempt + (retryLoop attempts retries attempt).2.1 - 1) ∧
    (∀ j, attempt ≤ j → j < attempt + (retryLoop attempts retries attempt).2.1 - 1 →
      (attempts j).status ≠ Status.healthy) ∧
    ((attempts (attempt + (retryLoop attempts retries attempt).2.1 - 1)).status = Status.healthy
      ∨ attempt + (retryLoop attempts retries attempt).2.1 = retries) ∧
    (retryLoop attempts retries attempt).2.2 = (retryLoop attempts retries attempt).2.1 - 1 := by
  induction k with
  | zero =>
    intro attempt hk h
    omega
  | succ k ih =>
    intro attempt hk h
    by_cases hx : (attempts attempt).status = Status.healthy
    · rw [retryLoop, if_pos hx]
      exact ⟨le_refl 1, show attempt + 1 ≤ retries by omega,
        show attempts attempt = attempts (attempt + 1 - 1) by simp,
        fun j hj1 hj2 => absurd (show j < attempt + 1 - 1 from hj2) (by omega),
        Or.inl (show (attempts (attempt + 1 - 1)).status = Status.healthy by simpa using hx),
        rfl⟩
    · by_cases hlt : attempt + 1 < retries
      · obtain ⟨ih1, ih2, ih3, ih4, ih5, ih6⟩ := ih (attempt + 1) (by omega) hlt
        rw [retryLoop, if_neg hx, dif_pos hlt]
        set t := retryLoop attempts retries (attempt + 1) with ht
        refine ⟨?_, ?_, ?_, ?_, ?_, ?_⟩
        · show 1 ≤ t.2.1 + 1
          omega
        · show attempt + (t.2.1 + 1) ≤ retries
          omega
        · show t.1 = attempts (attempt + (t.2.1 + 1) - 1)
          rw [ih3]; congr 1; omega
        · show ∀ j, attempt ≤ j → j < attempt + (t.2.1 + 1) - 1 →
            (attempts j).status ≠ Status.healthy
          intro j hj1 hj2
          rcases Nat.eq_or_lt_of_le hj1 with rfl | hj1x
          · exact hx
          · exact ih4 j (by omega) (by omega)
        · show (attempts (attempt + (t.2.1 + 1) - 1)).status = Status.healthy
            ∨ attempt + (t.2.1 + 1) = retries
          rcases ih5 with h5 | h5
          · left
            have hidx : attempt + (t.2.1 + 1) - 1 = attempt + 1 + t.2.1 - 1 := by omega
            rw [hidx]; exact h5
          · right; omega
        · show t.2.2 + 1 = t.2.1 + 1 - 1
          omega
      · rw [retryLoop, if_neg hx, dif_neg hlt]
        exact ⟨le_refl 1, show attempt + 1 ≤ retries by omega,
          show attempts attempt = attempts (attempt + 1 - 1) by simp,
          fun j hj1 hj2 => absurd (show j < attempt + 1 - 1 from hj2) (by omega),
          Or.inr (show attempt + 1 = retries by omega),
          rfl⟩

/-- No checker's `Check` ever returns a result whose status is
`checking`: every return path of every checker overwrites the initial
interim status. -/
theorem runCheck_status_ne_checking (inv : CheckInvocation) :
    (runCheck inv).status ≠ Status.checking := by
  rcases inv with ⟨s, o⟩ | ⟨s, o⟩ | ⟨s, o⟩ | ⟨s, o⟩ | ⟨s, o⟩ <;> rcases o <;>
    simp only [runCheck, HTTPCheck, TCPCheck, TLSCheck, DNSCheck, LatencyCheck] <;>
    (repeat' split) <;> simp

/-- Every healthy checker result carries a nil error. -/
theorem runCheck_healthy_error_none (inv : CheckInvocation) :
    (runCheck inv).status = Status.healthy → (runCheck inv).error = none := by
  rcases inv with ⟨s, o⟩ | ⟨s, o⟩ | ⟨s, o⟩ | ⟨s, o⟩ | ⟨s, o⟩ <;> rcases o <;>
    simp only [runCheck, HTTPCheck, TCPCheck, TLSCheck, DNSCheck, LatencyCheck] <;>
    (repeat' split) <;> simp

/-- The assertion loop is first-failure search in configured order. -/
theorem validateJSONAssertions_eq_findSome (lookup : String → GJsonResult) :
    ∀ l : List JSONAssertion,
      validateJSONAssertions lookup l = List.findSome? (assertionError lookup) l := by
  intro l
  induction l with
  | nil => rfl
  | cons a rest ih =>
    rw [List.findSome?_cons]
    by_cases h1 : (lookup a.path).exs
    · by_cases h2 : compareValue (lookup a.path) a.value a.operator
      · simp [validateJSONAssertions, assertionError, h1, h2, ih]
      · simp [validateJSONAssertions, assertionError, h1, h2]
    · simp [validateJSONAssertions, assertionError, h1]

/-- The assertion loop passes exactly when every assertion passes. -/
theorem validateJSONAssertions_eq_none_iff (lookup : String → GJsonResult)
    (l : List JSONAssertion) :
    validateJSONAssertions lookup l = none ↔ ∀ a ∈ l, assertionError lookup a = none := by
  rw [validateJSONAssertions_eq_findSome]
  exact List.findSome?_eq_none_iff

/-- A failing assertion loop implies a non-empty assertion list. -/
theorem validate_some_length_pos (lookup : String → GJsonResult)
    (l : List JSONAssertion) (e : String)
    (hv : validateJSONAssertions lookup l = some e) : 0 < l.length := by
  cases l with
  | nil => simp [validateJSONAssertions] at hv
  | cons a rest => simp

/-- The `len(service.JSONAssertions) > 0` guard in `HTTPChecker.Check` is
redundant: the loop returns nil on an empty list anyway. -/
theorem lengthGuard_validate (lookup : String → GJsonResult) (l : List JSONAssertion) :
    (if l.length > 0 then validateJSONAssertions lookup l else none)
      = validateJSONAssertions lookup l := by
  cases l <;> simp [validateJSONAssertions]

/-- A status other than `checking` is healthy, unhealthy or unknown. -/
theorem status_cases_of_ne_checking (st : Status) (h : st ≠ Status.checking) :
    st = Status.healthy ∨ st = Status.unhealthy ∨ st = Status.unknown := by
  cases st <;> simp at h ⊢

/-- C3: for a service with a registered checker and configured
retryAttempts r, `checkService` makes at most `max r 1` sequential
attempts, stops early at the first attempt whose status is healthy
(every attempt before the last one made was not healthy), sleeps one
second between non-final failed attempts (`sleepSeconds` = attempts
made minus one), and the terminal `Result` published after the interim
`checking` result is exactly the outcome of the attempt that stopped the
loop (the first healthy one, or the last attempt if none was healthy,
in which case all `max r 1` attempts were made). -/
theorem c3_retry_policy :
    ∀ (retryAttempts : Int) (svc : Service) (attempts : Nat → Result),
      registeredCheckerTypes.contains (effectiveCheckerType svc) = true →
      let t := checkService retryAttempts registeredCheckerTypes svc attempts
      1 ≤ t.attemptsMade ∧
      t.attemptsMade ≤ (max retryAttempts 1).toNat ∧
      t.published = [checkingResult svc, attempts (t.attemptsMade - 1)] ∧
      (∀ j, j < t.attemptsMade - 1 → (attempts j).status ≠ Status.healthy) ∧
      ((attempts (t.attemptsMade - 1)).status = Status.healthy
        ∨ t.attemptsMade = (max retryAttempts 1).toNat) ∧
      t.sleepSeconds = t.attemptsMade - 1 := by
  intro r svc attempts hreg
  intro t
  have ht : t = checkService r registeredCheckerTypes svc attempts := rfl
  rw [ht]
  unfold checkService
  rw [if_pos hreg]
  have hmax : (if r < 1 then 1 else r).toNat = (max r 1).toNat := by
    split <;> omega
  have hpos : 0 < (if r < 1 then 1 else r).toNat := by
    split <;> omega
  obtain ⟨s1, s2, s3, s4, s5, s6⟩ :=
    retryLoop_spec attempts (if r < 1 then 1 else r).toNat (if r < 1 then 1 else r).toNat 0 (by omega) hpos
  dsimp only
  simp only [Nat.zero_add] at s2 s3 s4 s5
  refine ⟨s1, by omega, ?_, ?_, ?_, s6⟩
  · rw [s3]
  · intro j hj
    exact s4 j (Nat.zero_le j) hj
  · rcases s5 with h5 | h5
    · exact Or.inl h5
    · exact Or.inr (by omega)

/-- C5: for a service whose effective checker type (defaulting to http
when empty) is not registered, `checkService` publishes the interim
checking result and then exactly one terminal result with status unknown
carrying the "unknown checker type" error, making zero probe attempts
and zero retry sleeps. -/
theorem c5_unknown_checker_type :
    ∀ (retryAttempts : Int) (svc : Service) (attempts : Nat → Result),
      registeredCheckerTypes.contains (effectiveCheckerType svc) = false →
      checkService retryAttempts registeredCheckerTypes svc attempts =
        { published := [checkingResult svc,
            { serviceName := svc.name, status := Status.unknown,
              responseTime := 0, statusCode := 0,
              error := some ("unknown checker type: " ++ effectiveCheckerType svc),
              message := "" }],
          attemptsMade := 0, sleepSeconds := 0 } := by
  intro r svc attempts h
  unfold checkService
  rw [if_neg (show ¬ registeredCheckerTypes.contains (effectiveCheckerType svc) = true by
    rw [h]; simp)]

/-- C9: every completed `checkService` run publishes exactly one interim
result with status checking (before any probe attempt), followed by
exactly one terminal result whose status is healthy, unhealthy or
unknown — never checking — when attempts are produced by the five real
checkers. -/
theorem c9_interim_then_terminal :
    ∀ (retryAttempts : Int) (svc : Service) (invs : Nat → CheckInvocation),
      ∃ terminal : Result,
        (checkService retryAttempts registeredCheckerTypes svc
            (fun i => runCheck (invs i))).published
          = [checkingResult svc, terminal] ∧
        (checkingResult svc).status = Status.checking ∧
        terminal.status ≠ Status.checking ∧
        (terminal.status = Status.healthy ∨ terminal.status = Status.unhealthy ∨
          terminal.status = Status.unknown) := by
  intro r svc invs
  by_cases hreg : registeredCheckerTypes.contains (effectiveCheckerType svc) = true
  · have hpos : 0 < (if r < 1 then 1 else r).toNat := by split <;> omega
    obtain ⟨s1, s2, s3, s4, s5, s6⟩ :=
      retryLoop_spec (fun i => runCheck (invs i)) (if r < 1 then 1 else r).toNat (if r < 1 then 1 else r).toNat 0 (by omega) hpos
    refine ⟨(retryLoop (fun i => runCheck (invs i)) (if r < 1 then 1 else r).toNat 0).1,
      ?_, rfl, ?_, ?_⟩
    · unfold checkService
      rw [if_pos hreg]
    · rw [s3]
      exact runCheck_status_ne_checking (invs _)
    · rw [s3]
      exact status_cases_of_ne_checking _ (runCheck_status_ne_checking (invs _))
  · refine ⟨unknownCheckerResult svc, ?_, rfl, by simp [unknownCheckerResult], ?_⟩
    · unfold checkService unknownCheckerResult
      rw [if_neg hreg]
    · right; right
      simp [unknownCheckerResult]

/-- C6: for an HTTP probe whose request completed with a response, the
result is healthy exactly when the status code equals the expected one
(200 substituted when the configured value is 0) and every JSON assertion
passes; on a status-code mismatch the full result is the unhealthy
record with message "Expected <expected>, got <actual>", a nil error,
and no dependence on the assertions (none are evaluated); with a
matching code the first failing assertion's error (first-failure search
in configured order) becomes the result's error with unhealthy status;
a missing path fails with the error naming the path. -/
theorem c6_http_response_semantics :
    ∀ (svc : Service) (code : Int) (lookup : String → GJsonResult) (elapsed : Int),
    ((HTTPCheck svc (HTTPOutcome.response code lookup elapsed)).status = Status.healthy ↔
      (code = (if svc.expectedStatus = 0 then 200 else svc.expectedStatus) ∧
       validateJSONAssertions lookup svc.jsonAssertions = none)) ∧
    (code ≠ (if svc.expectedStatus = 0 then 200 else svc.expectedStatus) →
      HTTPCheck svc (HTTPOutcome.response code lookup elapsed) =
        { serviceName := svc.name, status := Status.unhealthy, responseTime := elapsed,
          statusCode := code, error := none,
          message := "Expected "
            ++ toString (if svc.expectedStatus = 0 then 200 else svc.expectedStatus)
            ++ ", got " ++ toString code }) ∧
    (∀ e, code = (if svc.expectedStatus = 0 then 200 else svc.expectedStatus) →
      validateJSONAssertions lookup svc.jsonAssertions = some e →
      (HTTPCheck svc (HTTPOutcome.response code lookup elapsed)).status = Status.unhealthy ∧
      (HTTPCheck svc (HTTPOutcome.response code lookup elapsed)).error = some e) ∧
    (validateJSONAssertions lookup svc.jsonAssertions
      = List.findSome? (assertionError lookup) svc.jsonAssertions) ∧
    (∀ a : JSONAssertion, (lookup a.path).exs = false →
      assertionError lookup a = some (pathNotFoundMsg a.path)) := by
  intro svc code lookup elapsed
  refine ⟨?_, ?_, ?_, validateJSONAssertions_eq_findSome lookup svc.jsonAssertions, ?_⟩
  · by_cases hc : code = (if svc.expectedStatus = 0 then 200 else svc.expectedStatus)
    · rcases hv : validateJSONAssertions lookup svc.jsonAssertions with _ | e
      · simp [HTTPCheck, hc, lengthGuard_validate, hv]
      · have hlen : 0 < svc.jsonAssertions.length :=
          validate_some_length_pos lookup svc.jsonAssertions e hv
        simp [HTTPCheck, hc, hv, hlen]
    · simp [HTTPCheck, hc]
  · intro hc
    simp [HTTPCheck, hc]
  · intro e hc hv
    have hlen : 0 < svc.jsonAssertions.length :=
      validate_some_length_pos lookup svc.jsonAssertions e hv
    simp [HTTPCheck, hc, hv, hlen]
  · intro a ha
    simp [assertionError, ha]

/-- C7: the comparison dispatch supports exactly ==/equals, !=/not_equals,
>, <, >=, <=, contains; the four numeric operators return true only when
the expected value is a float64; contains returns true only when the
expected value is a string and it is a substring of the actual string
value; every type-mismatched comparison evaluates to false (the
functions are total — no error is raised). -/
theorem c7_comparison_operators :
    ∀ (actual : GJsonResult) (expected : GoValue),
    (compareValue actual expected "==" = jsonValueEquals actual expected) ∧
    (compareValue actual expected "equals" = jsonValueEquals actual expected) ∧
    (compareValue actual expected "!=" = !jsonValueEquals actual expected) ∧
    (compareValue actual expected "not_equals" = !jsonValueEquals actual expected) ∧
    (compareValue actual expected ">" = jsonGreaterThan actual expected) ∧
    (compareValue actual expected "<" = jsonLessThan actual expected) ∧
    (compareValue actual expected ">=" = jsonGreaterOrEqual actual expected) ∧
    (compareValue actual expected "<=" = jsonLessOrEqual actual expected) ∧
    (compareValue actual expected "contains" = jsonContains actual expected) ∧
    (∀ op, op = ">" ∨ op = "<" ∨ op = ">=" ∨ op = "<=" →
      compareValue actual expected op = true → ∃ q, expected = GoValue.num q) ∧
    (compareValue actual expected "contains" = true →
      ∃ s, expected = GoValue.str s ∧ strContains actual.str s = true) := by
  intro actual expected
  refine ⟨rfl, rfl, rfl, rfl, rfl, rfl, rfl, rfl, rfl, ?_, ?_⟩
  · intro op hop hcmp
    rcases hop with rfl | rfl | rfl | rfl
    · have hg : jsonGreaterThan actual expected = true := hcmp
      cases expected <;> simp [jsonGreaterThan] at hg ⊢
    · have hg : jsonLessThan actual expected = true := hcmp
      cases expected <;> simp [jsonLessThan] at hg ⊢
    · have hg : jsonGreaterOrEqual actual expected = true := hcmp
      cases expected <;> simp [jsonGreaterOrEqual] at hg ⊢
    · have hg : jsonLessOrEqual actual expected = true := hcmp
      cases expected <;> simp [jsonLessOrEqual] at hg ⊢
  · intro hcmp
    have hg : jsonContains actual expected = true := hcmp
    cases expected <;> simp [jsonContains] at hg ⊢
    exact hg

/-- C8: for a TLS probe, a handshake failure yields unhealthy with
message "TLS connection failed"; a certificate already past expiry
yields unhealthy with the formatted expiry date in the error; a valid
certificate is unhealthy exactly when its remaining days (truncating
division of the remaining time by 24h) are strictly below the warning
threshold (30 when the configured value is 0), with the day counts in
the error, and healthy (nil error) otherwise. -/
theorem c8_tls_statuses :
    ∀ (svc : Service) (elapsed : Int),
    (∀ e, (TLSCheck svc (TLSOutcome.dialError e elapsed)).status = Status.unhealthy ∧
          (TLSCheck svc (TLSOutcome.dialError e elapsed)).message = "TLS connection failed") ∧
    (∀ rem fmt, rem < 0 →
      (TLSCheck svc (TLSOutcome.cert rem fmt elapsed)).status = Status.unhealthy ∧
      (TLSCheck svc (TLSOutcome.cert rem fmt elapsed)).error
        = some ("certificate expired on " ++ fmt)) ∧
    (∀ rem fmt, 0 ≤ rem →
      ((TLSCheck svc (TLSOutcome.cert rem fmt elapsed)).status = Status.unhealthy ↔
        Int.tdiv rem nanosPerDay < (if svc.tlsWarningDays = 0 then 30 else svc.tlsWarningDays)) ∧
      ((TLSCheck svc (TLSOutcome.cert rem fmt elapsed)).status = Status.healthy ↔
        (if svc.tlsWarningDays = 0 then 30 else svc.tlsWarningDays) ≤ Int.tdiv rem nanosPerDay) ∧
      (Int.tdiv rem nanosPerDay < (if svc.tlsWarningDays = 0 then 30 else svc.tlsWarningDays) →
        (TLSCheck svc (TLSOutcome.cert rem fmt elapsed)).error
          = some ("certificate expires in " ++ toString (Int.tdiv rem nanosPerDay)
              ++ " days (warning threshold: "
              ++ toString (if svc.tlsWarningDays = 0 then 30 else svc.tlsWarningDays)
              ++ " days)")) ∧
      ((if svc.tlsWarningDays = 0 then 30 else svc.tlsWarningDays) ≤ Int.tdiv rem nanosPerDay →
        (TLSCheck svc (TLSOutcome.cert rem fmt elapsed)).error = none)) := by
  intro svc elapsed
  refine ⟨fun e => ⟨rfl, rfl⟩, ?_, ?_⟩
  · intro rem fmt h
    constructor <;> simp [TLSCheck, h]
  · intro rem fmt h
    have hn : ¬(rem < 0) := by omega
    by_cases hw : Int.tdiv rem nanosPerDay
        < (if svc.tlsWarningDays = 0 then 30 else svc.tlsWarningDays)
    · refine ⟨?_, ?_, ?_, ?_⟩ <;> simp [TLSCheck, hn, hw]
    · refine ⟨?_, ?_, ?_, ?_⟩ <;> (simp [TLSCheck, hn, hw]; try omega)

/-- A non-nil checker error implies a non-healthy status. -/
theorem runCheck_error_ne_none_not_healthy (inv : CheckInvocation) :
    (runCheck inv).error ≠ none → (runCheck inv).status ≠ Status.healthy :=
  fun he hs => he (runCheck_healthy_error_none inv hs)

/-- C1 (amended): `Result.error` is non-null only if the status is not
healthy — every healthy result from any checker, and every healthy
result published by the orchestrator, carries a null error. (The
converse direction of the original claim fails: see the
counterexample, an unhealthy HTTP status-code-mismatch result with a
null error.) -/
theorem c1_error_null_on_healthy :
    (∀ inv : CheckInvocation,
      (runCheck inv).error ≠ none → (runCheck inv).status ≠ Status.healthy) ∧
    (∀ (retryAttempts : Int) (svc : Service) (invs : Nat → CheckInvocation) (r : Result),
      r ∈ (checkService retryAttempts registeredCheckerTypes svc
            (fun i => runCheck (invs i))).published →
      r.status = Status.healthy → r.error = none) := by
  refine ⟨fun inv he hs => he (runCheck_healthy_error_none inv hs), ?_⟩
  intro ra svc invs r hmem hhealthy
  by_cases hreg : registeredCheckerTypes.contains (effectiveCheckerType svc) = true
  · have hpub : (checkService ra registeredCheckerTypes svc
        (fun i => runCheck (invs i))).published
        = [checkingResult svc,
           (retryLoop (fun i => runCheck (invs i)) (if ra < 1 then 1 else ra).toNat 0).1] := by
      unfold checkService
      rw [if_pos hreg]
    rw [hpub] at hmem
    have hpos : 0 < (if ra < 1 then 1 else ra).toNat := by split <;> omega
    obtain ⟨s1, s2, s3, s4, s5, s6⟩ :=
      retryLoop_spec (fun i => runCheck (invs i)) (if ra < 1 then 1 else ra).toNat (if ra < 1 then 1 else ra).toNat 0 (by omega) hpos
    simp only [List.mem_cons, List.mem_singleton] at hmem
    rcases hmem with rfl | rfl | hfalse
    · simp [checkingResult] at hhealthy
    · rw [s3] at hhealthy ⊢
      exact runCheck_healthy_error_none (invs _) hhealthy
    · cases hfalse
  · have hpub : (checkService ra registeredCheckerTypes svc
        (fun i => runCheck (invs i))).published
        = [checkingResult svc, unknownCheckerResult svc] := by
      unfold checkService unknownCheckerResult
      rw [if_neg hreg]
    rw [hpub] at hmem
    simp only [List.mem_cons, List.mem_singleton] at hmem
    rcases hmem with rfl | rfl | hfalse
    · simp [checkingResult] at hhealthy
    · simp [unknownCheckerResult] at hhealthy
    · cases hfalse

/-- C1 counterexample: the HTTP status-code-mismatch result is not
healthy yet its error is null, refuting the claimed
"error non-null iff status not healthy". -/
theorem c1_counterexample :
    (HTTPCheck exService (HTTPOutcome.response 404 exLookup 0)).status ≠ Status.healthy ∧
    (HTTPCheck exService (HTTPOutcome.response 404 exLookup 0)).error = none :=
  ⟨by decide, rfl⟩

/-- C2 (amended): an unparsable check-interval string makes `Monitor.Start`
fall back to the 30-second default, and monitor construction succeeds
whenever the timeout string parses; but an unparsable timeout string
makes `NewMonitor` return an "invalid timeout duration" error — startup
fails rather than falling back to the 5-second default. -/
theorem c2_duration_fallbacks :
    (∀ (cfg : Config) (e : String),
      NewMonitor (Except.error e) cfg = Except.error ("invalid timeout duration: " ++ e)) ∧
    (∀ e, startCheckInterval (Except.error e) = 30 * 1000000000) ∧
    (∀ (cfg : Config) (t : Int),
      NewMonitor (Except.ok t) cfg
        = Except.ok { config := cfg, checkerTypes := registeredCheckerTypes,
                      notifier := { enabled := true } }) :=
  ⟨fun _ _ => rfl, fun _ => rfl, fun _ _ => rfl⟩

/-- C2 counterexample: `time.ParseDuration("bogus")` fails, and
`NewMonitor` then returns an error instead of falling back, refuting
"NewMonitor never returns an error for an unparsable duration string". -/
theorem c2_counterexample :
    NewMonitor (Except.error "time: invalid duration \"bogus\"") exConfig
      = Except.error "invalid timeout duration: time: invalid duration \"bogus\"" := rfl

/-- C4: the notification gate (monitor transition filter composed with
`NotifyStatusChange` on the always-enabled notifier) fires exactly on a
transition into unhealthy whose source differs from unhealthy and is not
checking, or a transition from unhealthy into healthy; it never fires
when the status is unchanged, never with checking as source or
destination, and never on transitions into unknown. -/
theorem c4_notification_gate_trigger :
    ∀ (previous terminal : Status),
      monitorNotifies previous terminal = true ↔
        ((terminal = Status.unhealthy ∧ previous ≠ Status.unhealthy
            ∧ previous ≠ Status.checking)
          ∨ (terminal = Status.healthy ∧ previous = Status.unhealthy)) := by
  intro previous terminal
  cases previous <;> cases terminal <;> decide

/-- C10: `Config.AddService` errors exactly when a configured service
already bears the same name; on error the receiver is unchanged; on
success the new service is appended at the end with every other field of
the config unchanged, and name-uniqueness of the configured set is
preserved. -/
theorem c10_add_service :
    ∀ (c : Config) (svc : Service),
      ((Config.AddService c svc).2 ≠ none ↔ ∃ s ∈ c.services, s.name = svc.name) ∧
      ((Config.AddService c svc).2 ≠ none → (Config.AddService c svc).1 = c) ∧
      ((Config.AddService c svc).2 = none →
        (Config.AddService c svc).1.services = c.services ++ [svc] ∧
        (Config.AddService c svc).1.checkInterval = c.checkInterval ∧
        (Config.AddService c svc).1.timeout = c.timeout ∧
        (Config.AddService c svc).1.retryAttempts = c.retryAttempts) ∧
      ((c.services.map Service.name).Nodup → (Config.AddService c svc).2 = none →
        ((Config.AddService c svc).1.services.map Service.name).Nodup) := by
  intro c svc
  by_cases h : c.services.any (fun s => s.name == svc.name)
  · have hex : ∃ s ∈ c.services, s.name = svc.name := by
      simpa using h
    refine ⟨by simp [Config.AddService, h, hex], fun _ => by simp [Config.AddService, h],
      fun hnone => ?_, fun _ hnone => ?_⟩
    · simp [Config.AddService, h] at hnone
    · simp [Config.AddService, h] at hnone
  · have hnex : ¬∃ s ∈ c.services, s.name = svc.name := by
      simpa using h
    refine ⟨by simp [Config.AddService, h, hnex], fun habs => ?_, fun _ => ?_, fun hnd _ => ?_⟩
    · simp [Config.AddService, h] at habs
    · simp [Config.AddService, h]
    · simp only [Config.AddService, h]
      rw [if_neg (by simp)]
      simp only [List.map_append, List.map_cons, List.map_nil]
      rw [List.nodup_append]
      refine ⟨hnd, List.nodup_singleton _, ?_⟩
      intro a ha hb
      simp only [List.mem_singleton] at hb
      subst hb
      rcases List.mem_map.mp ha with ⟨s, hs, hname⟩
      exact hnex ⟨s, hs, hname⟩

/-- Concrete witness for C1: a failing TCP dial carries a non-null error,
and the theorem concludes its status is not healthy. -/
theorem c1_witness :
    (runCheck (CheckInvocation.tcp exService
        (TCPOutcome.dialError "connection refused" 3))).status ≠ Status.healthy :=
  c1_error_null_on_healthy.1 _ (by decide)

/-- Concrete witness for C3: three configured attempts against a probe
that fails twice then succeeds. -/
theorem c3_witness :
    registeredCheckerTypes.contains (effectiveCheckerType exService) = true ∧
    (let t := checkService 3 registeredCheckerTypes exService exAttempts
     1 ≤ t.attemptsMade ∧
     t.attemptsMade ≤ (max (3:Int) 1).toNat ∧
     t.published = [checkingResult exService, exAttempts (t.attemptsMade - 1)] ∧
     (∀ j, j < t.attemptsMade - 1 → (exAttempts j).status ≠ Status.healthy) ∧
     ((exAttempts (t.attemptsMade - 1)).status = Status.healthy
       ∨ t.attemptsMade = (max (3:Int) 1).toNat) ∧
     t.sleepSeconds = t.attemptsMade - 1) :=
  ⟨by decide, c3_retry_policy 3 exService exAttempts (by decide)⟩

/-- Concrete witness for C4: a recovery transition fires the gate. -/
theorem c4_witness :
    monitorNotifies Status.unhealthy Status.healthy = true :=
  (c4_notification_gate_trigger Status.unhealthy Status.healthy).mpr (Or.inr ⟨rfl, rfl⟩)

/-- Concrete witness for C5: a service of type "redis" has no registered
checker and yields the unknown-checker terminal result with no attempts. -/
theorem c5_witness :
    registeredCheckerTypes.contains (effectiveCheckerType exRedisService) = false ∧
    checkService 3 registeredCheckerTypes exRedisService exAttempts =
      { published := [checkingResult exRedisService,
          { serviceName := exRedisService.name, status := Status.unknown,
            responseTime := 0, statusCode := 0,
            error := some ("unknown checker type: " ++ effectiveCheckerType exRedisService),
            message := "" }],
        attemptsMade := 0, sleepSeconds := 0 } :=
  ⟨by decide, c5_unknown_checker_type 3 exRedisService exAttempts (by decide)⟩

/-- Concrete witness for C6: a 503 response against expected 200 yields
the exact status-code-mismatch result. -/
theorem c6_witness :
    HTTPCheck exService (HTTPOutcome.response 503 exLookup 0) =
      { serviceName := exService.name, status := Status.unhealthy, responseTime := 0,
        statusCode := 503, error := none,
        message := "Expected "
          ++ toString (if exService.expectedStatus = 0 then 200 else exService.expectedStatus)
          ++ ", got " ++ toString (503 : Int) } :=
  (c6_http_response_semantics exService 503 exLookup 0).2.1 (by decide)

/-- Concrete witness for C7: a true numeric comparison implies the
expected value is numeric. -/
theorem c7_witness :
    ∃ q, GoValue.num (3 : Rat) = GoValue.num q :=
  (c7_comparison_operators gFive
      (GoValue.num 3)).2.2.2.2.2.2.2.2.2.1 ">" (Or.inl rfl) (by decide)

/-- Concrete witness for C8: a certificate with 29 days remaining and the
default 30-day threshold carries the warning error. -/
theorem c8_witness :
    (TLSCheck exService (TLSOutcome.cert (29 * nanosPerDay) "2026-11-09" 5)).error
      = some ("certificate expires in "
          ++ toString (Int.tdiv (29 * nanosPerDay) nanosPerDay)
          ++ " days (warning threshold: "
          ++ toString (if exService.tlsWarningDays = 0 then 30 else exService.tlsWarningDays)
          ++ " days)") :=
  ((c8_tls_statuses exService 5).2.2 (29 * nanosPerDay) "2026-11-09" (by decide)).2.2.1 (by decide)

/-- Concrete witness for C9: a run over the TCP checker publishes the
interim checking result and one non-checking terminal result. -/
theorem c9_witness :
    ∃ terminal : Result,
      (checkService 3 registeredCheckerTypes exService
          (fun i => runCheck ((fun _ => CheckInvocation.tcp exService
            (TCPOutcome.connected 5)) i))).published
        = [checkingResult exService, terminal] ∧
      (checkingResult exService).status = Status.checking ∧
      terminal.status ≠ Status.checking ∧
      (terminal.status = Status.healthy ∨ terminal.status = Status.unhealthy ∨
        terminal.status = Status.unknown) :=
  c9_interim_then_terminal 3 exService
    (fun _ => CheckInvocation.tcp exService (TCPOutcome.connected 5))

/-- Concrete witness for C10: adding a fresh service to an empty
configuration appends it and changes nothing else. -/
theorem c10_witness :
    (Config.AddService exConfig exService).1.services = exConfig.services ++ [exService] ∧
    (Config.AddService exConfig exService).1.checkInterval = exConfig.checkInterval ∧
    (Config.AddService exConfig exService).1.timeout = exConfig.timeout ∧
    (Config.AddService exConfig exService).1.retryAttempts = exConfig.retryAttempts :=
  (c10_add_service exConfig exService).2.2.1 (by decide)
